import Mathlib

/-
Shallow embedding of the task/organization backend controllers
(src/controllers/task.controller.js, src/controllers/organization.controller.js,
and the session controller) over explicit datastore states.

Statuses and roles are free-form strings in the source, so they are modelled
as `String`. JavaScript timestamps are modelled as `Nat` milliseconds.
Request-body fields that may be absent (`undefined`) are modelled as `Option`.
Each controller returns the HTTP response it sends (status code, optional
`success` flag, optional `message`) together with the datastore state after
the call; `updateOrganizationMember` may send no response at all, so it
returns an `Option Response`.
-/

namespace Backend

/-- A row of the Task table. Field names follow the Sequelize model as used by
the controllers (`started_date` is the column the code reads and writes). -/
structure Task where
  id : Nat
  projectId : Nat
  assigneeId : Nat
  createdBy : Nat
  name : String
  description : String
  priority : Nat
  dueDate : Nat
  difficulty : Nat
  status : String
  started_date : Option Nat
  exception : Bool
deriving DecidableEq, Repr

/-- A row of the CompletedTask table, as created by `completeTask`. -/
structure CompletedTask where
  task_id : Nat
  user_id : Nat
  project_id : Nat
  started_date : Option Nat
  completed_date : Nat
  hours : Nat
deriving DecidableEq, Repr

/-- A row of the ProjectMembers table. -/
structure ProjectMember where
  userId : Nat
  projectId : Nat
  role : String
deriving DecidableEq, Repr

/-- The datastore state the task controller touches. -/
structure TaskState where
  tasks : List Task
  projectMembers : List ProjectMember
  completedTasks : List CompletedTask
deriving DecidableEq, Repr

/-- An HTTP response as the controllers build it: `res.status(s).json(body)`
with `res.json` defaulting to status 200. `success` and `message` are
`Option` because some responses omit them (`deleteOrganization`). -/
structure Response where
  status : Nat
  success : Option Bool
  message : Option String
deriving DecidableEq, Repr

/-- The request body of `updateTask`; every field may be `undefined`. -/
structure UpdateTaskBody where
  name : Option String
  description : Option String
  priority : Option Nat
  dueDate : Option Nat
  difficulty : Option Nat
  assigneeId : Option Nat
  projectId : Option Nat
  exception : Option Bool
  status : Option String
deriving DecidableEq, Repr

/-- JavaScript loose inequality `stored != bodyVal` where the stored value is
a number and the body value may be `undefined`: a number is never loosely
equal to `undefined`, so absence makes the comparison true. -/
def jsLooseNe (stored : Nat) (bodyVal : Option Nat) : Bool :=
  match bodyVal with
  | none => true
  | some v => stored != v

/-- JavaScript `new Date() - started` where `started` may be `null`:
`null` coerces to the number 0. -/
def jsDateCoerce (d : Option Nat) : Nat :=
  d.getD 0

/-- `Task.findByPk(taskId)`. -/
def findTask (tasks : List Task) (taskId : Nat) : Option Task :=
  tasks.find? (fun t => t.id == taskId)

/-- `ProjectMembers.findOne({where: {userId, projectId}})`. -/
def findProjectMember (pms : List ProjectMember) (userId projectId : Nat) :
    Option ProjectMember :=
  pms.find? (fun m => m.userId == userId && m.projectId == projectId)

/-- The shared guard of deleteTask/updateTask/completeTask:
`!projectMember || (userId !== task.assigneeId && projectMember.role !== "owner"
&& userId !== task.createdBy)`. `true` means the 403 branch is taken. -/
def taskAuthFails (pm : Option ProjectMember) (userId : Nat) (task : Task) : Bool :=
  match pm with
  | none => true
  | some m => userId != task.assigneeId && m.role != "owner" && userId != task.createdBy

/-- Persisting `task.update(...)`: the row with the task's id is replaced. -/
def saveTask (tasks : List Task) (t : Task) : List Task :=
  tasks.map (fun u => if u.id == t.id then t else u)

/-- Sequelize `update` semantics for the request-body fields: an `undefined`
field is skipped, a present field overwrites the column. `status` and
`started_date` are handled separately by each branch of `updateTask`. -/
def applyBodyFields (task : Task) (b : UpdateTaskBody) : Task :=
  { task with
    name := b.name.getD task.name
    description := b.description.getD task.description
    priority := b.priority.getD task.priority
    dueDate := b.dueDate.getD task.dueDate
    difficulty := b.difficulty.getD task.difficulty
    assigneeId := b.assigneeId.getD task.assigneeId
    projectId := b.projectId.getD task.projectId
    exception := b.exception.getD task.exception }

/-- `updateTask` (task.controller.js): not-found check, three-way
authorization, completed guard, assignee-change special case, in-progress
special case, plain update. `now` is the timestamp `new Date()` would read. -/
def updateTask (st : TaskState) (taskId userId : Nat) (b : UpdateTaskBody)
    (now : Nat) : Response × TaskState :=
  match findTask st.tasks taskId with
  | none => (⟨404, some false, some "Task not found."⟩, st)
  | some task =>
    let pm := findProjectMember st.projectMembers userId task.projectId
    if taskAuthFails pm userId task then
      (⟨403, some false, some "You are not authorized to perform this action."⟩, st)
    else if task.status == "completed" then
      (⟨403, some false, some "Task is already completed. Please open another task."⟩, st)
    else if jsLooseNe task.assigneeId b.assigneeId then
      let t := { applyBodyFields task b with status := "todo", started_date := none }
      (⟨200, some true, some "Task updated successfully"⟩,
        { st with tasks := saveTask st.tasks t })
    else
      let plain := { applyBodyFields task b with status := b.status.getD task.status }
      let plainResult :=
        ((⟨200, some true, some "Task updated successfully"⟩ : Response),
          { st with tasks := saveTask st.tasks plain })
      if b.status == some "in-progress" then
        if task.status == "in-progress" then
          (⟨403, some false, some "Task is already in progress."⟩, st)
        else if task.started_date == none then
          let t := { applyBodyFields task b with
            status := b.status.getD task.status, started_date := some now }
          (⟨200, some true, some "Task updated successfully"⟩,
            { st with tasks := saveTask st.tasks t })
        else plainResult
      else plainResult

/-- `Math.floor(Math.abs(now - started) / (1000 * 60 * 60))` of `completeTask`,
with the JavaScript `null`-to-0 coercion on the stored date. -/
def elapsedHours (now : Nat) (started : Option Nat) : Nat :=
  (Int.natAbs ((now : Int) - (jsDateCoerce started : Int))) / (1000 * 60 * 60)

/-- `completeTask` (task.controller.js): not-found check, in-progress
precondition, three-way authorization, exception flag on zero elapsed hours,
CompletedTask creation, then status set to completed. -/
def completeTask (st : TaskState) (taskId userId : Nat) (now : Nat) :
    Response × TaskState :=
  match findTask st.tasks taskId with
  | none => (⟨404, some false, some "Task not found."⟩, st)
  | some task =>
    if task.status != "in-progress" then
      (⟨403, some false, some "Task is not in progress. First make it in progress."⟩, st)
    else
      let pm := findProjectMember st.projectMembers userId task.projectId
      if taskAuthFails pm userId task then
        (⟨403, some false, some "You are not authorized to perform this action."⟩, st)
      else
        let diffInHours := elapsedHours now task.started_date
        let task1 := if diffInHours == 0 then { task with exception := true } else task
        let record : CompletedTask :=
          { task_id := taskId
            user_id := userId
            project_id := task.projectId
            started_date := task.started_date
            completed_date := now
            hours := diffInHours }
        let task2 := { task1 with status := "completed" }
        (⟨200, some true, some "Task completed successfully"⟩,
          { st with
            tasks := saveTask st.tasks task2
            completedTasks := record :: st.completedTasks })

/-- A row of the Organization table. -/
structure Organization where
  id : Nat
  name : String
  description : String
deriving DecidableEq, Repr

/-- A row of the OrganizationMembers table. -/
structure OrgMember where
  organizationId : Nat
  userId : Nat
  role : String
deriving DecidableEq, Repr

/-- A row of the Invite table. -/
structure Invite where
  organizationId : Nat
  email : String
  userId : Nat
  secret : String
deriving DecidableEq, Repr

/-- The datastore state the organization controller touches. -/
structure OrgState where
  orgs : List Organization
  members : List OrgMember
  invites : List Invite
deriving DecidableEq, Repr

/-- `OrganizationMembers.findOne({where: {organizationId, userId}})`. -/
def findOrgMember (ms : List OrgMember) (organizationId userId : Nat) :
    Option OrgMember :=
  ms.find? (fun m => m.organizationId == organizationId && m.userId == userId)

/-- `organizationMember.destroy()`: the found row — the first one matching the
(organizationId, userId) pair — is removed. -/
def removeFirstOrgMember : List OrgMember → Nat → Nat → List OrgMember
  | [], _, _ => []
  | m :: rest, organizationId, userId =>
    if m.organizationId == organizationId && m.userId == userId then rest
    else m :: removeFirstOrgMember rest organizationId userId

/-- `organizationMember.update({role})`: the found row — the first one matching
the (organizationId, userId) pair — gets the new role. -/
def updateFirstOrgMemberRole : List OrgMember → Nat → Nat → String → List OrgMember
  | [], _, _, _ => []
  | m :: rest, organizationId, userId, role =>
    if m.organizationId == organizationId && m.userId == userId then
      { m with role := role } :: rest
    else m :: updateFirstOrgMemberRole rest organizationId userId role

/-- `OrganizationMembers.findAll({where: {organizationId, role: "owner"}})`. -/
def ownersOf (ms : List OrgMember) (organizationId : Nat) : List OrgMember :=
  ms.filter (fun m => m.organizationId == organizationId && m.role == "owner")

/-- `Invite.findOne({where: {secret, userId}})`. -/
def findInvite (is : List Invite) (secret : String) (userId : Nat) : Option Invite :=
  is.find? (fun i => i.secret == secret && i.userId == userId)

/-- `invite.destroy()`: the found row — the first one matching (secret, userId)
— is removed. -/
def removeFirstInvite : List Invite → String → Nat → List Invite
  | [], _, _ => []
  | i :: rest, secret, userId =>
    if i.secret == secret && i.userId == userId then rest
    else i :: removeFirstInvite rest secret userId

/-- `organization.destroy()` in `deleteOrganization`: the row found by primary
key is removed. -/
def removeFirstOrg : List Organization → Nat → List Organization
  | [], _ => []
  | o :: rest, organizationId =>
    if o.id == organizationId then rest
    else o :: removeFirstOrg rest organizationId

/-- `removeOrganizationMember` (organization.controller.js): owner
authorization (401), membership existence (400), not-an-owner guard (400),
last-owner guard (400), then destroy. -/
def removeOrganizationMember (st : OrgState) (organizationId targetUserId
    currentUserId : Nat) : Response × OrgState :=
  match findOrgMember st.members organizationId currentUserId with
  | none =>
    (⟨401, some false, some "You are unauthorized to perform this action."⟩, st)
  | some currentUser =>
    if currentUser.role != "owner" then
      (⟨401, some false, some "You are unauthorized to perform this action."⟩, st)
    else
      match findOrgMember st.members organizationId targetUserId with
      | none => (⟨400, some false, some "User is not a member of the organization"⟩, st)
      | some organizationMember =>
        if organizationMember.role == "owner" then
          (⟨400, some false, some "You cannot remove an owner of the organization."⟩, st)
        else if (ownersOf st.members organizationId).length == 1 then
          (⟨400, some false, some "You cannot remove the last owner of the organization."⟩, st)
        else
          (⟨200, some true, some "User removed from the organization successfully."⟩,
            { st with members := removeFirstOrgMember st.members organizationId targetUserId })

/-- `updateOrganizationMember` (organization.controller.js): owner
authorization (401), membership existence (400), then the role update. The
source sends no response after the successful `update`, which the `none`
first component records. -/
def updateOrganizationMember (st : OrgState) (organizationId targetUserId : Nat)
    (role : String) (currentUserId : Nat) : Option Response × OrgState :=
  match findOrgMember st.members organizationId currentUserId with
  | none =>
    (some ⟨401, some false, some "You are unauthorized to perform this action."⟩, st)
  | some currentUser =>
    if currentUser.role != "owner" then
      (some ⟨401, some false, some "You are unauthorized to perform this action."⟩, st)
    else
      match findOrgMember st.members organizationId targetUserId with
      | none =>
        (some ⟨400, some false, some "User is not a member of the organization"⟩, st)
      | some _ =>
        (none,
          { st with members :=
              updateFirstOrgMemberRole st.members organizationId targetUserId role })

/-- `acceptInvitation` (organization.controller.js): look up the invite by
(secret, userId), 404 if absent; otherwise create an OrganizationMembers row
with role "member" and destroy the invite. -/
def acceptInvitation (st : OrgState) (secret : String) (userId : Nat) :
    Response × OrgState :=
  match findInvite st.invites secret userId with
  | none => (⟨404, some false, some "Invite not found"⟩, st)
  | some invite =>
    (⟨200, some true, some "Invite accepted successfully."⟩,
      { st with
        members := ⟨invite.organizationId, invite.userId, "member"⟩ :: st.members
        invites := removeFirstInvite st.invites secret userId })

/-- `rejectInvitation` (organization.controller.js): look up the invite by
(secret, userId), 404 if absent; otherwise destroy the invite. Building the
success payload then reads the undeclared variable `organizationMember`, so
after the destroy a ReferenceError is thrown, caught by the handler's catch,
and a 500 envelope carrying the error message is sent instead of the success
response. -/
def rejectInvitation (st : OrgState) (secret : String) (userId : Nat) :
    Response × OrgState :=
  match findInvite st.invites secret userId with
  | none => (⟨404, some false, some "Invite not found"⟩, st)
  | some _ =>
    (⟨500, some false, some "organizationMember is not defined"⟩,
      { st with invites := removeFirstInvite st.invites secret userId })

/-- `deleteOrganization` (organization.controller.js): owner authorization
(403), organization existence (404), then destroy. The success response is
`res.json({message})` — it carries no `success` field. -/
def deleteOrganization (st : OrgState) (organizationId userId : Nat) :
    Response × OrgState :=
  match findOrgMember st.members organizationId userId with
  | none => (⟨403, some false, some "You are unauthorized."⟩, st)
  | some organizationMember =>
    if organizationMember.role != "owner" then
      (⟨403, some false, some "You are unauthorized."⟩, st)
    else
      match st.orgs.find? (fun o => o.id == organizationId) with
      | none => (⟨404, some false, some "Organization not found"⟩, st)
      | some _ =>
        (⟨200, none, some "Organization deleted successfully"⟩,
          { st with orgs := removeFirstOrg st.orgs organizationId })

/-- A row of the Session table (spec data model: id, userId, validity flag). -/
structure Session where
  id : Nat
  userId : Nat
  valid : Bool
deriving DecidableEq, Repr

/-- A JavaScript Promise that has not been awaited. As an object it is truthy,
and reading a data field such as `.valid` on it yields `undefined`; awaiting
it (or returning it from an async function) yields `result`. -/
structure JsPromise (α : Type) where
  result : α
deriving DecidableEq, Repr

/-- An object value is truthy in JavaScript. -/
def jsPromiseTruthy {α : Type} (_ : JsPromise α) : Bool := true

/-- Reading the `.valid` field of a pending Promise yields `undefined`. -/
def jsPromiseFieldValid {α : Type} (_ : JsPromise α) : Option Bool := none

/-- JavaScript truthiness of a possibly-`undefined` boolean. -/
def jsTruthyOptBool : Option Bool → Bool
  | none => false
  | some b => b

/-- `getSession` (session controller): `Session.findOne` is called without
`await`, so `session` is a pending Promise; the guard `session &&
session.valid` reads `.valid` off the Promise object (always `undefined`),
so the else arm returns `null` on every input. Had the guard passed, the
async function would have resolved the returned Promise to the row. The
source queries the column `sessionId`; the lookup is modelled on the
session's id and is discarded either way. -/
def getSession (store : List Session) (sessionId : Nat) : Option Session :=
  let session : JsPromise (Option Session) :=
    ⟨store.find? (fun s => s.id == sessionId)⟩
  if jsPromiseTruthy session && jsTruthyOptBool (jsPromiseFieldValid session) then
    session.result
  else none

/-- Modelled from the spec: `getSession(id)` returns the session only if it
exists and `valid=true`; otherwise returns nothing. Stated for comparison
with the source's `getSession`. -/
def getSessionSpec (store : List Session) (sessionId : Nat) : Option Session :=
  match store.find? (fun s => s.id == sessionId) with
  | none => none
  | some s => if s.valid then some s else none

/-- Concrete in-progress task used to exercise the plain-update branch. -/
def taskC1 : Task :=
  ⟨1, 1, 10, 10, "a", "b", 0, 0, 0, "in-progress", some 0, false⟩

/-- Datastore with `taskC1` and its assignee as a project member. -/
def stC1 : TaskState := ⟨[taskC1], [⟨10, 1, "member"⟩], []⟩

/-- Body that keeps the assignee and requests status "todo". -/
def bodyC1 : UpdateTaskBody :=
  ⟨none, none, none, none, none, some 10, none, none, some "todo"⟩

/-- Concrete completed task. -/
def taskC1w : Task :=
  ⟨2, 1, 10, 10, "a", "b", 0, 0, 0, "completed", some 0, false⟩

/-- Datastore with the completed `taskC1w`. -/
def stC1w : TaskState := ⟨[taskC1w], [⟨10, 1, "member"⟩], []⟩

/-- Concrete in-progress task started at time 0. -/
def taskC2 : Task :=
  ⟨3, 1, 10, 10, "a", "b", 0, 0, 0, "in-progress", some 0, false⟩

/-- Datastore with `taskC2` and its assignee as a project member. -/
def stC2 : TaskState := ⟨[taskC2], [⟨10, 1, "member"⟩], []⟩

/-- Organization state whose single member is its only owner. -/
def stC3 : OrgState := ⟨[], [⟨1, 1, "owner"⟩], []⟩

/-- Concrete todo task. -/
def taskC4 : Task :=
  ⟨4, 1, 10, 10, "a", "b", 0, 0, 0, "todo", some 7, false⟩

/-- Datastore with `taskC4`, its assignee, and a second project member. -/
def stC4 : TaskState := ⟨[taskC4], [⟨10, 1, "member"⟩, ⟨11, 1, "member"⟩], []⟩

/-- Body that reassigns `taskC4` to user 11 while requesting status
"in-progress". -/
def bodyC4 : UpdateTaskBody :=
  ⟨none, none, none, none, none, some 11, none, none, some "in-progress"⟩

/-- Concrete todo task with no started date. -/
def taskC5 : Task :=
  ⟨5, 1, 10, 10, "a", "b", 0, 0, 0, "todo", none, false⟩

/-- Datastore with `taskC5` and its assignee as a project member. -/
def stC5 : TaskState := ⟨[taskC5], [⟨10, 1, "member"⟩], []⟩

/-- Body that keeps the assignee and requests status "in-progress". -/
def bodyC5 : UpdateTaskBody :=
  ⟨none, none, none, none, none, some 10, none, none, some "in-progress"⟩

/-- Concrete pending invite for user 2. -/
def inviteC6 : Invite := ⟨1, "b@example.com", 2, "s"⟩

/-- Organization state holding only `inviteC6`. -/
def stC6 : OrgState := ⟨[], [⟨1, 1, "owner"⟩], [inviteC6]⟩

/-- Concrete todo task whose progress tracking has started values stored. -/
def taskC10 : Task :=
  ⟨6, 1, 10, 10, "a", "b", 0, 0, 0, "in-progress", some 7, false⟩

/-- Datastore with `taskC10` and its assignee as a project member. -/
def stC10 : TaskState := ⟨[taskC10], [⟨10, 1, "member"⟩], []⟩

/-- Body with every field absent — in particular `assigneeId` is undefined. -/
def bodyC10 : UpdateTaskBody :=
  ⟨none, none, none, none, none, none, none, none, none⟩

/-- Organization state with one organization, its owner (user 1) and a plain
member (user 2). -/
def stC9 : OrgState := ⟨[⟨1, "n", "d"⟩], [⟨1, 1, "owner"⟩, ⟨1, 2, "member"⟩], []⟩

/-! Helper lemmas about the datastore primitives. -/

theorem findTask_id_eq (tasks : List Task) (taskId : Nat) (task : Task)
    (h : findTask tasks taskId = some task) : task.id = taskId := by
  have hb := List.find?_some h
  simpa using hb

theorem findTask_isSome (tasks : List Task) (taskId : Nat) (task : Task)
    (h : findTask tasks taskId = some task) : (findTask tasks taskId).isSome := by
  rw [h]; rfl

theorem findTask_saveTask (tasks : List Task) (taskId : Nat) (t : Task)
    (h : (findTask tasks taskId).isSome) (hid : t.id = taskId) :
    findTask (saveTask tasks t) taskId = some t := by
  induction tasks with
  | nil => simp [findTask] at h
  | cons a rest ih =>
    show List.find? (fun u => u.id == taskId)
        ((if a.id == t.id then t else a) :: saveTask rest t) = some t
    by_cases hc : (a.id == taskId) = true
    · have h1 : a.id = taskId := by simpa using hc
      have hac : (a.id == t.id) = true := by simp [h1, hid]
      rw [hac, if_pos rfl]
      exact List.find?_cons_of_pos _ (by simp [hid])
    · have hat : (a.id == t.id) = false := by
        rw [hid]
        simpa using hc
      rw [hat, if_neg (by simp)]
      rw [List.find?_cons_of_neg _ (by simpa using hc)]
      apply ih
      have hh : findTask (a :: rest) taskId = findTask rest taskId :=
        List.find?_cons_of_neg _ (by simpa using hc)
      rwa [hh] at h

theorem ownersOf_removeFirstOrgMember (ms : List OrgMember) (orgId uid : Nat)
    (m : OrgMember) (hfind : findOrgMember ms orgId uid = some m)
    (hrole : (m.role == "owner") = false) :
    ownersOf (removeFirstOrgMember ms orgId uid) orgId = ownersOf ms orgId := by
  induction ms with
  | nil => simp [findOrgMember] at hfind
  | cons a rest ih =>
    simp only [removeFirstOrgMember]
    by_cases hc : (a.organizationId == orgId && a.userId == uid) = true
    · have hma : m = a := by
        have hfa : findOrgMember (a :: rest) orgId uid = some a :=
          List.find?_cons_of_pos _ hc
        rw [hfa] at hfind
        exact (Option.some.inj hfind).symm
      have hpa : (a.organizationId == orgId && a.role == "owner") = false := by
        rw [hma] at hrole
        simp [hrole]
      rw [if_pos hc]
      show ownersOf rest orgId = ownersOf (a :: rest) orgId
      unfold ownersOf
      simp [List.filter_cons, hpa]
    · have hrest : findOrgMember rest orgId uid = some m := by
        have hskip : findOrgMember (a :: rest) orgId uid =
            findOrgMember rest orgId uid :=
          List.find?_cons_of_neg _ (by simpa using hc)
        rw [hskip] at hfind
        exact hfind
      rw [if_neg hc]
      show ownersOf (a :: removeFirstOrgMember rest orgId uid) orgId =
        ownersOf (a :: rest) orgId
      unfold ownersOf
      have hih := ih hrest
      unfold ownersOf at hih
      simp [List.filter_cons, hih]

/-- Claim C1, counterexample: the forward-only part of the claim fails. The
plain-update branch of `updateTask` writes whatever status the body supplies,
so an authorized update of the in-progress task `taskC1` with requested
status "todo" succeeds and moves the task backwards to "todo". -/
theorem C1_counterexample :
    taskC1.status = "in-progress" ∧
    (updateTask stC1 1 10 bodyC1 0).1 =
      ⟨200, some true, some "Task updated successfully"⟩ ∧
    findTask (updateTask stC1 1 10 bodyC1 0).2.tasks 1 =
      some ⟨1, 1, 10, 10, "a", "b", 0, 0, 0, "todo", some 0, false⟩ := by
  decide

/-- Claim C1 (amended): a completed task is terminal — `updateTask` on a task
whose status is "completed" answers 403 (either the authorization failure or
"task already completed") without writing, and `completeTask` on it fails its
in-progress precondition with 403 without writing. (The original claim's
further assertion that every status transition proceeds
todo → in-progress → completed is refuted by `C1_counterexample`: the plain
update branch writes arbitrary request statuses on non-completed tasks.) -/
theorem C1_completed_terminal (st : TaskState) (taskId userId now : Nat)
    (b : UpdateTaskBody) (task : Task)
    (hfind : findTask st.tasks taskId = some task)
    (hcomp : task.status = "completed") :
    ((updateTask st taskId userId b now).1.status = 403 ∧
      (updateTask st taskId userId b now).2 = st) ∧
    (completeTask st taskId userId now).1.status = 403 ∧
    (completeTask st taskId userId now).2 = st := by
  constructor
  · unfold updateTask
    rw [hfind]
    cases hA : taskAuthFails (findProjectMember st.projectMembers userId
        task.projectId) userId task
    · simp [hA, hcomp]
    · simp [hA]
  · unfold completeTask
    rw [hfind]
    simp [hcomp]

/-- Witness for `C1_completed_terminal` at the completed task `taskC1w`. -/
theorem C1_witness :
    findTask stC1w.tasks 2 = some taskC1w ∧
    taskC1w.status = "completed" ∧
    (((updateTask stC1w 2 10 bodyC1 0).1.status = 403 ∧
       (updateTask stC1w 2 10 bodyC1 0).2 = stC1w) ∧
      (completeTask stC1w 2 10 0).1.status = 403 ∧
      (completeTask stC1w 2 10 0).2 = stC1w) :=
  ⟨rfl, rfl, C1_completed_terminal stC1w 2 10 0 bodyC1 taskC1w rfl rfl⟩

/-- Claim C2: `completeTask` answers 403 whenever the task's status is not
exactly "in-progress"; on an authorized in-progress task it succeeds,
creates exactly one CompletedTask record whose hours field is the absolute
difference between now and the started date floored to whole hours, sets the
exception flag to true exactly when that value is zero (leaving it untouched
otherwise, and completing either way), sets the task's status to
"completed", and a second `completeTask` on the resulting state fails the
in-progress precondition without any further record or state change. -/
theorem C2_completeTask_correct (st : TaskState)
    (taskId userId now userId2 now2 : Nat) (task : Task)
    (hfind : findTask st.tasks taskId = some task) :
    (task.status ≠ "in-progress" →
      completeTask st taskId userId now =
        (⟨403, some false, some "Task is not in progress. First make it in progress."⟩,
          st)) ∧
    (task.status = "in-progress" →
      taskAuthFails (findProjectMember st.projectMembers userId task.projectId)
          userId task = false →
      (completeTask st taskId userId now).1 =
        ⟨200, some true, some "Task completed successfully"⟩ ∧
      (completeTask st taskId userId now).2.completedTasks =
        ⟨taskId, userId, task.projectId, task.started_date, now,
          elapsedHours now task.started_date⟩ :: st.completedTasks ∧
      (elapsedHours now task.started_date = 0 →
        findTask (completeTask st taskId userId now).2.tasks taskId =
          some { task with exception := true, status := "completed" }) ∧
      (elapsedHours now task.started_date ≠ 0 →
        findTask (completeTask st taskId userId now).2.tasks taskId =
          some { task with status := "completed" }) ∧
      completeTask (completeTask st taskId userId now).2 taskId userId2 now2 =
        (⟨403, some false, some "Task is not in progress. First make it in progress."⟩,
          (completeTask st taskId userId now).2)) := by
  have hid := findTask_id_eq _ _ _ hfind
  have hsome := findTask_isSome _ _ _ hfind
  constructor
  · intro hne
    unfold completeTask
    rw [hfind]
    simp [hne]
  · intro hip hA
    cases hz : (elapsedHours now task.started_date == 0) with
    | true =>
      have hz0 : elapsedHours now task.started_date = 0 := by simpa using hz
      have hres : completeTask st taskId userId now =
          (⟨200, some true, some "Task completed successfully"⟩,
            { st with
              tasks := saveTask st.tasks
                { task with exception := true, status := "completed" }
              completedTasks :=
                ⟨taskId, userId, task.projectId, task.started_date, now,
                  elapsedHours now task.started_date⟩ :: st.completedTasks }) := by
        unfold completeTask
        rw [hfind]
        simp [hip, hA, hz]
      have hf2 : findTask
          (saveTask st.tasks { task with exception := true, status := "completed" })
          taskId = some { task with exception := true, status := "completed" } :=
        findTask_saveTask _ _ _ hsome hid
      refine ⟨by rw [hres], by rw [hres], fun _ => by rw [hres]; exact hf2,
        fun h0 => absurd hz0 h0, ?_⟩
      rw [hres]
      unfold completeTask
      simp [hf2]
    | false =>
      have hz0 : elapsedHours now task.started_date ≠ 0 := by simpa using hz
      have hres : completeTask st taskId userId now =
          (⟨200, some true, some "Task completed successfully"⟩,
            { st with
              tasks := saveTask st.tasks { task with status := "completed" }
              completedTasks :=
                ⟨taskId, userId, task.projectId, task.started_date, now,
                  elapsedHours now task.started_date⟩ :: st.completedTasks }) := by
        unfold completeTask
        rw [hfind]
        simp [hip, hA, hz]
      have hf2 : findTask
          (saveTask st.tasks { task with status := "completed" })
          taskId = some { task with status := "completed" } :=
        findTask_saveTask _ _ _ hsome hid
      refine ⟨by rw [hres], by rw [hres], fun h0 => absurd h0 hz0,
        fun _ => by rw [hres]; exact hf2, ?_⟩
      rw [hres]
      unfold completeTask
      simp [hf2]

/-- Witness for `C2_completeTask_correct` at the spec scenario: the task
started 90 minutes (5400000 ms) before now, so hours = 1, the exception flag
stays false, the status becomes "completed", and the second call fails. -/
theorem C2_witness :
    findTask stC2.tasks 3 = some taskC2 ∧
    taskC2.status = "in-progress" ∧
    taskAuthFails (findProjectMember stC2.projectMembers 10 taskC2.projectId)
        10 taskC2 = false ∧
    elapsedHours 5400000 taskC2.started_date = 1 ∧
    ((completeTask stC2 3 10 5400000).1 =
        ⟨200, some true, some "Task completed successfully"⟩ ∧
      (completeTask stC2 3 10 5400000).2.completedTasks =
        ⟨3, 10, taskC2.projectId, taskC2.started_date, 5400000,
          elapsedHours 5400000 taskC2.started_date⟩ :: stC2.completedTasks ∧
      (elapsedHours 5400000 taskC2.started_date = 0 →
        findTask (completeTask stC2 3 10 5400000).2.tasks 3 =
          some { taskC2 with exception := true, status := "completed" }) ∧
      (elapsedHours 5400000 taskC2.started_date ≠ 0 →
        findTask (completeTask stC2 3 10 5400000).2.tasks 3 =
          some { taskC2 with status := "completed" }) ∧
      completeTask (completeTask stC2 3 10 5400000).2 3 9 99 =
        (⟨403, some false, some "Task is not in progress. First make it in progress."⟩,
          (completeTask stC2 3 10 5400000).2)) :=
  ⟨rfl, rfl, rfl, by decide,
    (C2_completeTask_correct stC2 3 10 5400000 9 99 taskC2 rfl).2 rfl rfl⟩

/-- Claim C3, counterexample: an organization whose only member is its only
owner reaches zero owners when that owner's role is updated to "member" via
`updateOrganizationMember` — the operation has no last-owner guard. -/
theorem C3_counterexample :
    (ownersOf stC3.members 1).length = 1 ∧
    (updateOrganizationMember stC3 1 1 "member" 1).2.members = [⟨1, 1, "member"⟩] ∧
    (ownersOf (updateOrganizationMember stC3 1 1 "member" 1).2.members 1).length = 0 := by
  decide

/-- Claim C3 (amended): `removeOrganizationMember` alone preserves the owner
rows of every organization — it refuses to remove any owner, so no sequence
of removals can reach zero owners; `updateOrganizationMember`, however, can
demote the last owner (see `C3_counterexample`), so the combined invariant
fails. -/
theorem C3_remove_preserves_owners (st : OrgState)
    (organizationId targetUserId currentUserId : Nat) :
    ownersOf (removeOrganizationMember st organizationId targetUserId
        currentUserId).2.members organizationId =
      ownersOf st.members organizationId := by
  unfold removeOrganizationMember
  cases hcu : findOrgMember st.members organizationId currentUserId with
  | none => rfl
  | some currentUser =>
    cases hr : (currentUser.role != "owner") with
    | true => simp [hr]
    | false =>
      cases htg : findOrgMember st.members organizationId targetUserId with
      | none => simp [hr]
      | some organizationMember =>
        cases ho : (organizationMember.role == "owner") with
        | true => simp [hr, ho]
        | false =>
          cases hl : ((ownersOf st.members organizationId).length == 1) with
          | true => simp [hr, ho, hl]
          | false =>
            simp only [hr, ho, hl, Bool.false_eq_true, if_false]
            exact ownersOf_removeFirstOrgMember st.members organizationId
              targetUserId organizationMember htg ho

theorem updateTask_reassign_eq (st : TaskState) (taskId userId now : Nat)
    (b : UpdateTaskBody) (task : Task)
    (hfind : findTask st.tasks taskId = some task)
    (hauth : taskAuthFails (findProjectMember st.projectMembers userId
        task.projectId) userId task = false)
    (hncomp : task.status ≠ "completed")
    (hchange : jsLooseNe task.assigneeId b.assigneeId = true) :
    updateTask st taskId userId b now =
      (⟨200, some true, some "Task updated successfully"⟩,
        { st with
          tasks := saveTask st.tasks
            { applyBodyFields task b with status := "todo", started_date := none } }) := by
  unfold updateTask
  rw [hfind]
  simp [hauth, hncomp, hchange]

/-- Claim C4: an authorized `updateTask` on a non-completed task whose
assignee field is being changed takes the reassignment branch: whatever
status value the body carries (and the body has no startedDate field at
all), the stored task ends with status "todo" and a null started date. -/
theorem C4_reassignment_resets (st : TaskState) (taskId userId now : Nat)
    (b : UpdateTaskBody) (task : Task)
    (hfind : findTask st.tasks taskId = some task)
    (hauth : taskAuthFails (findProjectMember st.projectMembers userId
        task.projectId) userId task = false)
    (hncomp : task.status ≠ "completed")
    (hchange : jsLooseNe task.assigneeId b.assigneeId = true) :
    (updateTask st taskId userId b now).1 =
      ⟨200, some true, some "Task updated successfully"⟩ ∧
    findTask (updateTask st taskId userId b now).2.tasks taskId =
      some { applyBodyFields task b with status := "todo", started_date := none } := by
  have hid := findTask_id_eq _ _ _ hfind
  have hsome := findTask_isSome _ _ _ hfind
  have hres := updateTask_reassign_eq st taskId userId now b task hfind hauth
    hncomp hchange
  exact ⟨by rw [hres], by rw [hres]; exact findTask_saveTask _ _ _ hsome hid⟩

/-- Witness for `C4_reassignment_resets`: reassigning `taskC4` from user 10 to
user 11 while requesting status "in-progress" still lands on "todo"/null. -/
theorem C4_witness :
    findTask stC4.tasks 4 = some taskC4 ∧
    taskAuthFails (findProjectMember stC4.projectMembers 10 taskC4.projectId)
        10 taskC4 = false ∧
    taskC4.status ≠ "completed" ∧
    jsLooseNe taskC4.assigneeId bodyC4.assigneeId = true ∧
    ((updateTask stC4 4 10 bodyC4 99).1 =
        ⟨200, some true, some "Task updated successfully"⟩ ∧
      findTask (updateTask stC4 4 10 bodyC4 99).2.tasks 4 =
        some { applyBodyFields taskC4 bodyC4 with
          status := "todo", started_date := none }) :=
  ⟨rfl, rfl, by decide, rfl,
    C4_reassignment_resets stC4 4 10 99 bodyC4 taskC4 rfl rfl (by decide) rfl⟩

/-- Claim C5: an authorized `updateTask` requesting status "in-progress" on a
non-completed task whose assignee is unchanged fails 403 without any state
change when the task is already in-progress; otherwise, when the stored
started date is null, the update stores status "in-progress" together with
the current time as the started date. -/
theorem C5_first_in_progress_sets_started (st : TaskState)
    (taskId userId now : Nat) (b : UpdateTaskBody) (task : Task)
    (hfind : findTask st.tasks taskId = some task)
    (hauth : taskAuthFails (findProjectMember st.projectMembers userId
        task.projectId) userId task = false)
    (hncomp : task.status ≠ "completed")
    (hsame : jsLooseNe task.assigneeId b.assigneeId = false)
    (hstat : b.status = some "in-progress") :
    (task.status = "in-progress" →
      updateTask st taskId userId b now =
        (⟨403, some false, some "Task is already in progress."⟩, st)) ∧
    (task.status ≠ "in-progress" → task.started_date = none →
      (updateTask st taskId userId b now).1 =
        ⟨200, some true, some "Task updated successfully"⟩ ∧
      findTask (updateTask st taskId userId b now).2.tasks taskId =
        some { applyBodyFields task b with
          status := "in-progress", started_date := some now }) := by
  have hid := findTask_id_eq _ _ _ hfind
  have hsome := findTask_isSome _ _ _ hfind
  constructor
  · intro hip
    unfold updateTask
    rw [hfind]
    simp [hauth, hncomp, hsame, hstat, hip]
  · intro hnip hsd
    have hres : updateTask st taskId userId b now =
        (⟨200, some true, some "Task updated successfully"⟩,
          { st with
            tasks := saveTask st.tasks
              { applyBodyFields task b with
                status := "in-progress", started_date := some now } }) := by
      unfold updateTask
      rw [hfind]
      simp [hauth, hncomp, hsame, hstat, hnip, hsd]
    exact ⟨by rw [hres], by rw [hres]; exact findTask_saveTask _ _ _ hsome hid⟩

/-- Witness for `C5_first_in_progress_sets_started`: the todo task `taskC5`
with no started date moves to "in-progress" with startedDate = 77. -/
theorem C5_witness :
    findTask stC5.tasks 5 = some taskC5 ∧
    taskAuthFails (findProjectMember stC5.projectMembers 10 taskC5.projectId)
        10 taskC5 = false ∧
    taskC5.status ≠ "completed" ∧
    jsLooseNe taskC5.assigneeId bodyC5.assigneeId = false ∧
    bodyC5.status = some "in-progress" ∧
    ((taskC5.status = "in-progress" →
        updateTask stC5 5 10 bodyC5 77 =
          (⟨403, some false, some "Task is already in progress."⟩, stC5)) ∧
      (taskC5.status ≠ "in-progress" → taskC5.started_date = none →
        (updateTask stC5 5 10 bodyC5 77).1 =
          ⟨200, some true, some "Task updated successfully"⟩ ∧
        findTask (updateTask stC5 5 10 bodyC5 77).2.tasks 5 =
          some { applyBodyFields taskC5 bodyC5 with
            status := "in-progress", started_date := some 77 })) :=
  ⟨rfl, rfl, by decide, rfl, rfl,
    C5_first_in_progress_sets_started stC5 5 10 77 bodyC5 taskC5 rfl rfl
      (by decide) rfl rfl⟩

/-- Claim C10: when the request body omits `assigneeId` (undefined), the
stored assignee compares loosely unequal to `undefined`, so the reassignment
branch runs: the task's status is reset to "todo" and its started date to
null even though the stored assignee itself is left unchanged (Sequelize
skips the undefined field). -/
theorem C10_undefined_assignee_reassigns (st : TaskState)
    (taskId userId now : Nat) (b : UpdateTaskBody) (task : Task)
    (hfind : findTask st.tasks taskId = some task)
    (hauth : taskAuthFails (findProjectMember st.projectMembers userId
        task.projectId) userId task = false)
    (hncomp : task.status ≠ "completed")
    (habsent : b.assigneeId = none) :
    jsLooseNe task.assigneeId b.assigneeId = true ∧
    (applyBodyFields task b).assigneeId = task.assigneeId ∧
    (updateTask st taskId userId b now).1 =
      ⟨200, some true, some "Task updated successfully"⟩ ∧
    findTask (updateTask st taskId userId b now).2.tasks taskId =
      some { applyBodyFields task b with status := "todo", started_date := none } := by
  have hid := findTask_id_eq _ _ _ hfind
  have hsome := findTask_isSome _ _ _ hfind
  have hch : jsLooseNe task.assigneeId b.assigneeId = true := by
    rw [habsent]
    rfl
  have hres := updateTask_reassign_eq st taskId userId now b task hfind hauth
    hncomp hch
  refine ⟨hch, by simp [applyBodyFields, habsent], by rw [hres], ?_⟩
  rw [hres]
  exact findTask_saveTask _ _ _ hsome hid

/-- Witness for `C10_undefined_assignee_reassigns`: updating the in-progress
task `taskC10` with a body that carries no fields at all resets it to
"todo" with a null started date. -/
theorem C10_witness :
    findTask stC10.tasks 6 = some taskC10 ∧
    taskAuthFails (findProjectMember stC10.projectMembers 10 taskC10.projectId)
        10 taskC10 = false ∧
    taskC10.status ≠ "completed" ∧
    bodyC10.assigneeId = none ∧
    (jsLooseNe taskC10.assigneeId bodyC10.assigneeId = true ∧
      (applyBodyFields taskC10 bodyC10).assigneeId = taskC10.assigneeId ∧
      (updateTask stC10 6 10 bodyC10 42).1 =
        ⟨200, some true, some "Task updated successfully"⟩ ∧
      findTask (updateTask stC10 6 10 bodyC10 42).2.tasks 6 =
        some { applyBodyFields taskC10 bodyC10 with
          status := "todo", started_date := none }) :=
  ⟨rfl, rfl, by decide, rfl,
    C10_undefined_assignee_reassigns stC10 6 10 42 bodyC10 taskC10 rfl rfl
      (by decide) rfl⟩

theorem findInvite_removeFirstInvite (is : List Invite) (secret : String)
    (userId : Nat)
    (huniq : (is.filter
        (fun i => i.secret == secret && i.userId == userId)).length ≤ 1) :
    findInvite (removeFirstInvite is secret userId) secret userId = none := by
  induction is with
  | nil => rfl
  | cons a rest ih =>
    simp only [removeFirstInvite]
    by_cases hc : (a.secret == secret && a.userId == userId) = true
    · rw [if_pos hc]
      have hcons : (List.filter
          (fun i => i.secret == secret && i.userId == userId) (a :: rest)).length
          = (rest.filter
              (fun i => i.secret == secret && i.userId == userId)).length + 1 := by
        simp [List.filter_cons, hc]
      rw [hcons] at huniq
      have hnil : rest.filter
          (fun i => i.secret == secret && i.userId == userId) = [] := by
        have hlen : (rest.filter
            (fun i => i.secret == secret && i.userId == userId)).length = 0 := by
          omega
        exact List.length_eq_zero.mp hlen
      unfold findInvite
      rw [List.find?_eq_none]
      intro x hx
      have := List.filter_eq_nil_iff.mp hnil x hx
      simpa using this
    · rw [if_neg hc]
      unfold findInvite
      rw [List.find?_cons_of_neg _ (by simpa using hc)]
      apply ih
      have hsk : List.filter
          (fun i => i.secret == secret && i.userId == userId) (a :: rest)
          = rest.filter (fun i => i.secret == secret && i.userId == userId) := by
        simp [List.filter_cons, hc]
      rw [hsk] at huniq
      exact huniq

/-- Claim C6: with a unique invite stored for (secret, userId),
`acceptInvitation` creates an OrganizationMembers row with role "member" and
destroys the invite; `rejectInvitation` destroys the invite and nothing else
(its attempted success response crashes into a 500, leaving members
untouched); and after either consumption every further accept or reject with
the same secret answers 404 Invite not found without changing state. -/
theorem C6_invite_single_use (st : OrgState) (secret : String) (userId : Nat)
    (invite : Invite)
    (hfind : findInvite st.invites secret userId = some invite)
    (huniq : (st.invites.filter
        (fun i => i.secret == secret && i.userId == userId)).length ≤ 1) :
    acceptInvitation st secret userId =
      (⟨200, some true, some "Invite accepted successfully."⟩,
        { st with
          members := ⟨invite.organizationId, invite.userId, "member"⟩ :: st.members
          invites := removeFirstInvite st.invites secret userId }) ∧
    rejectInvitation st secret userId =
      (⟨500, some false, some "organizationMember is not defined"⟩,
        { st with invites := removeFirstInvite st.invites secret userId }) ∧
    acceptInvitation (acceptInvitation st secret userId).2 secret userId =
      (⟨404, some false, some "Invite not found"⟩,
        (acceptInvitation st secret userId).2) ∧
    rejectInvitation (acceptInvitation st secret userId).2 secret userId =
      (⟨404, some false, some "Invite not found"⟩,
        (acceptInvitation st secret userId).2) ∧
    acceptInvitation (rejectInvitation st secret userId).2 secret userId =
      (⟨404, some false, some "Invite not found"⟩,
        (rejectInvitation st secret userId).2) ∧
    rejectInvitation (rejectInvitation st secret userId).2 secret userId =
      (⟨404, some false, some "Invite not found"⟩,
        (rejectInvitation st secret userId).2) := by
  have hrm := findInvite_removeFirstInvite st.invites secret userId huniq
  have hacc : acceptInvitation st secret userId =
      (⟨200, some true, some "Invite accepted successfully."⟩,
        { st with
          members := ⟨invite.organizationId, invite.userId, "member"⟩ :: st.members
          invites := removeFirstInvite st.invites secret userId }) := by
    unfold acceptInvitation
    rw [hfind]
  have hrej : rejectInvitation st secret userId =
      (⟨500, some false, some "organizationMember is not defined"⟩,
        { st with invites := removeFirstInvite st.invites secret userId }) := by
    unfold rejectInvitation
    rw [hfind]
  have hrmA : findInvite ({ st with
      members := ⟨invite.organizationId, invite.userId, "member"⟩ :: st.members
      invites := removeFirstInvite st.invites secret userId } : OrgState).invites
      secret userId = none := hrm
  have hrmR : findInvite ({ st with
      invites := removeFirstInvite st.invites secret userId } : OrgState).invites
      secret userId = none := hrm
  refine ⟨hacc, hrej, ?_, ?_, ?_, ?_⟩
  · rw [hacc]
    unfold acceptInvitation
    rw [hrmA]
  · rw [hacc]
    unfold rejectInvitation
    rw [hrmA]
  · rw [hrej]
    unfold acceptInvitation
    rw [hrmR]
  · rw [hrej]
    unfold rejectInvitation
    rw [hrmR]

/-- Witness for `C6_invite_single_use` at the single stored invite
`inviteC6`. -/
theorem C6_witness :
    findInvite stC6.invites "s" 2 = some inviteC6 ∧
    (stC6.invites.filter (fun i => i.secret == "s" && i.userId == 2)).length ≤ 1 ∧
    (acceptInvitation stC6 "s" 2 =
        (⟨200, some true, some "Invite accepted successfully."⟩,
          { stC6 with
            members := ⟨inviteC6.organizationId, inviteC6.userId, "member"⟩ ::
              stC6.members
            invites := removeFirstInvite stC6.invites "s" 2 }) ∧
      rejectInvitation stC6 "s" 2 =
        (⟨500, some false, some "organizationMember is not defined"⟩,
          { stC6 with invites := removeFirstInvite stC6.invites "s" 2 }) ∧
      acceptInvitation (acceptInvitation stC6 "s" 2).2 "s" 2 =
        (⟨404, some false, some "Invite not found"⟩, (acceptInvitation stC6 "s" 2).2) ∧
      rejectInvitation (acceptInvitation stC6 "s" 2).2 "s" 2 =
        (⟨404, some false, some "Invite not found"⟩, (acceptInvitation stC6 "s" 2).2) ∧
      acceptInvitation (rejectInvitation stC6 "s" 2).2 "s" 2 =
        (⟨404, some false, some "Invite not found"⟩, (rejectInvitation stC6 "s" 2).2) ∧
      rejectInvitation (rejectInvitation stC6 "s" 2).2 "s" 2 =
        (⟨404, some false, some "Invite not found"⟩, (rejectInvitation stC6 "s" 2).2)) :=
  ⟨rfl, by decide, C6_invite_single_use stC6 "s" 2 inviteC6 rfl (by decide)⟩

/-- Claim C7 (code bug at `rejectInvitation`): on a state holding a matching
invite, `rejectInvitation` returns a failure envelope (status 500,
success=false, the ReferenceError message) even though it has already
destroyed the invite — a failure response with a datastore change, refuting
"failures never partially apply". -/
theorem C7_failure_envelope_with_state_change :
    stC6.invites = [inviteC6] ∧
    (rejectInvitation stC6 "s" 2).1.status = 500 ∧
    (rejectInvitation stC6 "s" 2).1.success = some false ∧
    (rejectInvitation stC6 "s" 2).2.invites = [] := by
  decide

/-- Claim C8 (code bug at `getSession`): the source never awaits the
`findOne` promise, so the `session.valid` guard reads `undefined` off the
promise object and the function returns null on every input — here even for
a stored session with valid=true, contrary to the spec reading
(`getSessionSpec`), which returns the session. -/
theorem C8_getSession_missing_await :
    getSession [⟨5, 7, true⟩] 5 = none ∧
    getSessionSpec [⟨5, 7, true⟩] 5 = some ⟨5, 7, true⟩ := by
  decide

/-- Claim C9 (code bug): the uniform-envelope contract fails on the two
named paths — `updateOrganizationMember` sends no response at all on its
success path, and `deleteOrganization`'s success response carries no
`success` field. -/
theorem C9_envelope_violations :
    (updateOrganizationMember stC9 1 2 "member" 1).1 = none ∧
    (deleteOrganization stC9 1 1).1 =
      ⟨200, none, some "Organization deleted successfully"⟩ ∧
    (deleteOrganization stC9 1 1).1.success = none := by
  decide

end Backend
